import Mathlib

/-!
# Verification of the opensase control-plane controller (`src/controller/mod.rs`)

Shallow embedding of the central-controller subsystem: data model
(`Policy`, `PopInfo`, `Tunnel`, `Route`, `GlobalState`), the
`CentralController` operations (`distribute_policy`, `handle_pop_failure`,
`process_heartbeat`, `register_pop`, `version_policy`,
`find_nearest_healthy_pop`, `reroute_tunnel`), the `RegionalController`,
the `FailoverManager` lease state machine and the `HealthMonitor`
hysteresis classifier.

Modelling conventions:
* Rust `HashMap<String, V>` is modelled as an association list
  `List (String × V)` with distinct keys, where the list order stands for
  the map's iteration order (`values()` / `values_mut()` walk it in that
  order).  `insert` on a present key replaces the value in place; on an
  absent key it appends.  Rust's iteration order is arbitrary, so
  properties about "equal maps" quantify over permutations.
* `f64` gauges (`cpu_usage`, `latency`, ...) are modelled as `ℚ`; the code
  only copies and compares them (the latency function is the constant
  `10.0`), so this is exact.
* Wall-clock reads (`chrono::Utc::now()`) are modelled by passing the
  current timestamp as an explicit parameter (`String` for rfc3339 fields,
  `Nat` seconds for lease arithmetic).
* `u32`/`u64` counters are modelled as `Nat`; the claims under scrutiny
  never reach the wrap-around range.
* Rust `Result<T, ControllerError>` with `&mut self` receivers is modelled
  as a pure function returning `Except ControllerError Unit × State`: the
  second component is the state as left behind, also on the error path
  (Rust's `?` keeps mutations already performed).
-/

namespace OpenSase

/-- Association-list lookup, modelling `HashMap::get`. -/
def mapGet {β : Type} : List (String × β) → String → Option β
  | [], _ => none
  | (k', v) :: rest, k => if k = k' then some v else mapGet rest k

/-- Association-list insert, modelling `HashMap::insert`: a present key has
its value replaced in place (the bucket does not move), an absent key is
appended (one particular realisation of the arbitrary bucket position). -/
def mapInsert {β : Type} : List (String × β) → String → β → List (String × β)
  | [], k, v => [(k, v)]
  | (k', v') :: rest, k, v =>
      if k = k' then (k, v) :: rest else (k', v') :: mapInsert rest k v

theorem mapGet_mapInsert_same {β : Type} (m : List (String × β)) (k : String) (v : β) :
    mapGet (mapInsert m k v) k = some v := by
  induction m with
  | nil => simp [mapInsert, mapGet]
  | cons hd tl ih =>
      obtain ⟨k', v'⟩ := hd
      by_cases h : k = k' <;> simp [mapInsert, mapGet, h, ih]

theorem mapGet_mapInsert_other {β : Type} (m : List (String × β)) (k j : String) (v : β)
    (hne : j ≠ k) : mapGet (mapInsert m k v) j = mapGet m j := by
  induction m with
  | nil => simp [mapInsert, mapGet, hne]
  | cons hd tl ih =>
      obtain ⟨k', v'⟩ := hd
      by_cases h : k = k'
      · subst h
        simp [mapInsert, mapGet, hne]
      · by_cases h2 : j = k' <;> simp [mapInsert, mapGet, h, h2, ih]

-- ═══════════════════════════════════════════════════════════════════════
-- Core types (`src/controller/mod.rs`, CORE TYPES section)
-- ═══════════════════════════════════════════════════════════════════════

/-- Controller role (`enum Role`). -/
inductive Role where
  | Primary
  | Secondary
  | Observer
deriving DecidableEq, Repr

/-- PoP health status (`enum HealthStatus`). -/
inductive HealthStatus where
  | Healthy
  | Degraded
  | Unhealthy
  | Unknown
deriving DecidableEq, Repr

/-- `HealthStatus::is_healthy`: `matches!(self, Healthy | Degraded)`. -/
def HealthStatus.is_healthy : HealthStatus → Bool
  | .Healthy => true
  | .Degraded => true
  | _ => false

/-- Policy type (`enum PolicyType`). -/
inductive PolicyType where
  | Firewall
  | Routing
  | QoS
  | Security
  | Compliance
  | Custom
deriving DecidableEq, Repr

/-- Region identifier (`struct Region(pub String)`). -/
structure Region where
  val : String
deriving DecidableEq, Repr

/-- Versioned policy (`struct Policy`); `rules: Vec<u8>` is a byte list. -/
structure Policy where
  id : String
  name : String
  version : Nat
  policy_type : PolicyType
  rules : List Nat
  tenant_id : String
  target_pops : List String
  created_at : String
  updated_at : String
deriving DecidableEq, Repr

/-- PoP information (`struct PopInfo`); `f64` gauges as `ℚ`. -/
structure PopInfo where
  id : String
  location : String
  region : String
  health : HealthStatus
  active_connections : Nat
  cpu_usage : ℚ
  memory_usage : ℚ
  bandwidth_mbps : ℚ
  last_heartbeat : String
deriving DecidableEq, Repr

/-- `PopInfo::latency_to`: the reference latency function is the stub
constant `10.0` for every client location. -/
def PopInfo.latency_to (_self : PopInfo) (_client_location : String) : ℚ := 10

/-- Tunnel status (`enum TunnelStatus`). -/
inductive TunnelStatus where
  | Active
  | Inactive
  | Degraded
  | Failed
deriving DecidableEq, Repr

/-- Tunnel configuration (`struct Tunnel`). -/
structure Tunnel where
  id : String
  tenant_id : String
  name : String
  endpoints : List String
  client_location : String
  status : TunnelStatus
  bandwidth_limit_mbps : Option Nat
deriving DecidableEq, Repr

/-- Route entry (`struct Route`); the source field named `pre`+`fix` is
called `pfx` here. -/
structure Route where
  id : String
  pfx : String
  next_hop : String
  metric : Nat
  pop_id : String
deriving DecidableEq, Repr

/-- Global controller state (`struct GlobalState`): maps keyed by id,
modelled as association lists in iteration order. -/
structure GlobalState where
  policies : List (String × Policy)
  pops : List (String × PopInfo)
  tunnels : List (String × Tunnel)
  routes : List (String × Route)
deriving DecidableEq, Repr

/-- `GlobalState::default()`: all maps empty. -/
def GlobalState.default : GlobalState :=
  { policies := [], pops := [], tunnels := [], routes := [] }

/-- Health-monitor configuration (`struct HealthConfig`). -/
structure HealthConfig where
  check_interval_ms : Nat
  unhealthy_threshold : Nat
  healthy_threshold : Nat
deriving DecidableEq, Repr

/-- `HealthConfig::default()`. -/
def HealthConfig.default : HealthConfig :=
  { check_interval_ms := 5000, unhealthy_threshold := 3, healthy_threshold := 2 }

/-- Controller errors (`enum ControllerError`). -/
inductive ControllerError where
  | NoHealthyPops
  | PolicyDistributionFailed (reason : String)
  | NoLease
  | ConnectionFailed (detail : String)
deriving DecidableEq, Repr

-- ═══════════════════════════════════════════════════════════════════════
-- HealthMonitor (`src/controller/mod.rs`, HEALTH MONITOR section)
-- ═══════════════════════════════════════════════════════════════════════

/-- Per-PoP hysteresis tracker (`struct HealthTracker`). -/
structure HealthTracker where
  consecutive_failures : Nat
  consecutive_successes : Nat
  current_status : HealthStatus
deriving DecidableEq, Repr

/-- The tracker `or_insert`ed on first observation. -/
def HealthTracker.initial : HealthTracker :=
  { consecutive_failures := 0, consecutive_successes := 0,
    current_status := HealthStatus.Unknown }

/-- Health monitor (`struct HealthMonitor`). -/
structure HealthMonitor where
  config : HealthConfig
  pop_health : List (String × HealthTracker)
deriving DecidableEq, Repr

/-- `HealthMonitor::new`. -/
def HealthMonitor.new (config : HealthConfig) : HealthMonitor :=
  { config := config, pop_health := [] }

/-- The tracker the `entry(pop_id).or_insert(...)` call operates on. -/
def HealthMonitor.trackerOf (m : HealthMonitor) (pop_id : String) : HealthTracker :=
  (mapGet m.pop_health pop_id).getD HealthTracker.initial

/-- `HealthMonitor::record_success`: bump `consecutive_successes`, clear
`consecutive_failures`, and set status to `Healthy` only once the success
run reaches `healthy_threshold`. -/
def HealthMonitor.record_success (m : HealthMonitor) (pop_id : String) : HealthMonitor :=
  let t := m.trackerOf pop_id
  let t := { t with consecutive_successes := t.consecutive_successes + 1,
                    consecutive_failures := 0 }
  let t := if t.consecutive_successes ≥ m.config.healthy_threshold
           then { t with current_status := HealthStatus.Healthy }
           else t
  { m with pop_health := mapInsert m.pop_health pop_id t }

/-- `HealthMonitor::record_failure`: bump `consecutive_failures`, clear
`consecutive_successes`, and set status to `Unhealthy` at
`unhealthy_threshold`, else `Degraded` (the failure count is positive
after the bump, so the `> 0` guard in the source always holds here). -/
def HealthMonitor.record_failure (m : HealthMonitor) (pop_id : String) : HealthMonitor :=
  let t := m.trackerOf pop_id
  let t := { t with consecutive_failures := t.consecutive_failures + 1,
                    consecutive_successes := 0 }
  let t := if t.consecutive_failures ≥ m.config.unhealthy_threshold
           then { t with current_status := HealthStatus.Unhealthy }
           else if t.consecutive_failures > 0
           then { t with current_status := HealthStatus.Degraded }
           else t
  { m with pop_health := mapInsert m.pop_health pop_id t }

/-- `HealthMonitor::get_status`: `Unknown` for a never-observed PoP. -/
def HealthMonitor.get_status (m : HealthMonitor) (pop_id : String) : HealthStatus :=
  ((mapGet m.pop_health pop_id).map HealthTracker.current_status).getD HealthStatus.Unknown

-- ═══════════════════════════════════════════════════════════════════════
-- RegionalController (`src/controller/mod.rs`, REGIONAL CONTROLLER)
-- ═══════════════════════════════════════════════════════════════════════

/-- Regional controller (`struct RegionalController`). -/
structure RegionalController where
  region : Region
  pops : List String
  active_policies : List (String × Policy)
deriving DecidableEq, Repr

/-- `RegionalController::new`. -/
def RegionalController.new (region : Region) : RegionalController :=
  { region := region, pops := [], active_policies := [] }

/-- `RegionalController::apply_policy`: stores the policy keyed by id,
unconditionally overwriting, and returns `Ok(())` for every input. -/
def RegionalController.apply_policy (rc : RegionalController) (p : Policy) :
    Except ControllerError Unit × RegionalController :=
  (Except.ok (), { rc with active_policies := mapInsert rc.active_policies p.id p })

-- ═══════════════════════════════════════════════════════════════════════
-- CentralController (`src/controller/mod.rs`, CENTRAL CONTROLLER)
-- ═══════════════════════════════════════════════════════════════════════

/-- Controller configuration (`struct ControllerConfig`); only the fields
the verified operations read are carried. -/
structure ControllerConfig where
  node_id : String
  bind_address : String
  grpc_port : Nat
  regions : List Region
  health : HealthConfig
deriving DecidableEq, Repr

/-- Central controller (`struct CentralController`): global state plus one
regional controller per configured region, in iteration order. -/
structure CentralController where
  config : ControllerConfig
  state : GlobalState
  regional_controllers : List (Region × RegionalController)
deriving DecidableEq, Repr

/-- `CentralController::new`: fresh `GlobalState`, one `RegionalController`
per configured region. -/
def CentralController.new (config : ControllerConfig) : CentralController :=
  { config := config
    state := GlobalState.default
    regional_controllers :=
      config.regions.map (fun r => (r, RegionalController.new r)) }

/-- `CentralController::version_policy`: next version is the stored
version for this id plus 1, or 1 when the id is new; stamps `updated_at`
with the current time. -/
def CentralController.version_policy (c : CentralController) (policy : Policy)
    (now : String) : Policy :=
  { policy with
      version := ((mapGet c.state.policies policy.id).map (fun p => p.version + 1)).getD 1
      updated_at := now }

/-- The `for rc in self.regional_controllers.values_mut() { rc.apply_policy(&versioned)?; }`
loop of `distribute_policy`, with the regional apply behaviour as a
parameter: the `?` returns the first error, keeping the regional
controllers already visited in their updated state and the rest
untouched. -/
def applyLoop (apply : RegionalController → Policy → Except ControllerError Unit × RegionalController)
    (p : Policy) :
    List (Region × RegionalController) →
      Except ControllerError Unit × List (Region × RegionalController)
  | [] => (Except.ok (), [])
  | (r, rc) :: rest =>
      match (apply rc p).1 with
      | Except.ok _ =>
          ((applyLoop apply p rest).1, (r, (apply rc p).2) :: (applyLoop apply p rest).2)
      | Except.error e => (Except.error e, (r, (apply rc p).2) :: rest)

/-- The `self.state.policies.insert(versioned.id.clone(), versioned.clone())`
step of `distribute_policy`. -/
def CentralController.insertPolicy (c : CentralController) (v : Policy) :
    CentralController :=
  { c with state := { c.state with policies := mapInsert c.state.policies v.id v } }

/-- `CentralController::distribute_policy` with its regional apply call as
a parameter (the source calls `RegionalController::apply_policy`; see
`CentralController.distribute_policy` for the faithful instantiation):
version the policy, insert it into the central `policies` map, then apply
it to every regional controller in turn, aborting on the first error. -/
def CentralController.distributePolicyWith
    (apply : RegionalController → Policy → Except ControllerError Unit × RegionalController)
    (c : CentralController) (policy : Policy) (now : String) :
    Except ControllerError Unit × CentralController :=
  let versioned := c.version_policy policy now
  let c1 := c.insertPolicy versioned
  let looped := applyLoop apply versioned c1.regional_controllers
  (looped.1, { c1 with regional_controllers := looped.2 })

/-- `CentralController::distribute_policy`, its regional apply being the
source's `RegionalController::apply_policy`. -/
def CentralController.distribute_policy (c : CentralController) (policy : Policy)
    (now : String) : Except ControllerError Unit × CentralController :=
  c.distributePolicyWith RegionalController.apply_policy policy now

/-- `CentralController::register_pop`: insert/overwrite keyed by id;
always `Ok(())`. -/
def CentralController.register_pop (c : CentralController) (pop : PopInfo) :
    Except ControllerError Unit × CentralController :=
  (Except.ok (),
   { c with state := { c.state with pops := mapInsert c.state.pops pop.id pop } })

/-- PoP status update (`struct PopStatus`). -/
structure PopStatus where
  health : HealthStatus
  cpu_usage : ℚ
  memory_usage : ℚ
  active_connections : Nat
deriving DecidableEq, Repr

/-- The field updates `process_heartbeat` performs on a known PoP record:
copy the payload gauges and stamp `last_heartbeat` with the current time. -/
def heartbeatUpdate (pop : PopInfo) (status : PopStatus) (now : String) : PopInfo :=
  { pop with
      health := status.health
      cpu_usage := status.cpu_usage
      memory_usage := status.memory_usage
      active_connections := status.active_connections
      last_heartbeat := now }

/-- `CentralController::process_heartbeat`: when the PoP is known, copy
the payload fields into its record and stamp `last_heartbeat` with the
current time; an unknown PoP is silently ignored. Always `Ok(())`. -/
def CentralController.process_heartbeat (c : CentralController) (pop_id : String)
    (status : PopStatus) (now : String) : Except ControllerError Unit × CentralController :=
  match mapGet c.state.pops pop_id with
  | none => (Except.ok (), c)
  | some pop =>
      (Except.ok (),
       { c with state :=
          { c.state with pops := mapInsert c.state.pops pop_id (heartbeatUpdate pop status now) } })

/-- `CentralController::get_pop_status`. -/
def CentralController.get_pop_status (c : CentralController) (pop_id : String) :
    Option PopInfo :=
  mapGet c.state.pops pop_id

/-- The candidate list built inside `find_nearest_healthy_pop`: the pops
map's values in iteration order, filtered by `health.is_healthy()`,
paired with the latency to the tunnel's client location. -/
def CentralController.healthyCandidates (c : CentralController) (tunnel : Tunnel) :
    List (String × ℚ) :=
  ((c.state.pops.map Prod.snd).filter (fun p => p.health.is_healthy)).map
    (fun p => (p.id, p.latency_to tunnel.client_location))

/-- One step of a stable ascending insertion by latency: the element goes
before the first strictly larger latency, after all equal ones. -/
def insertByLatency (x : String × ℚ) : List (String × ℚ) → List (String × ℚ)
  | [] => [x]
  | y :: ys => if x.2 < y.2 then x :: y :: ys else y :: insertByLatency x ys

/-- Model of `candidates.sort_by(|a, b| a.1.partial_cmp(&b.1).unwrap_or(Equal))`:
a stable ascending sort by the latency component (Rust's `sort_by` is
stable, and `partial_cmp` on `ℚ`-modelled latencies is the total order). -/
def sortByLatency (l : List (String × ℚ)) : List (String × ℚ) :=
  l.foldl (fun acc x => insertByLatency x acc) []

/-- `CentralController::find_nearest_healthy_pop`: eligible candidates
sorted by ascending latency; the first one wins, `NoHealthyPops` when
none exists. -/
def CentralController.find_nearest_healthy_pop (c : CentralController)
    (tunnel : Tunnel) : Except ControllerError String :=
  match (sortByLatency (c.healthyCandidates tunnel)).head? with
  | some (id, _) => Except.ok id
  | none => Except.error ControllerError.NoHealthyPops

/-- `CentralController::reroute_tunnel`: when the tunnel is known, its
endpoint list becomes the single new PoP and its status `Active`; the
source returns `Ok(())` unconditionally, so this is a pure update. -/
def CentralController.reroute_tunnel (c : CentralController) (tunnel_id : String)
    (new_pop : String) : CentralController :=
  match mapGet c.state.tunnels tunnel_id with
  | none => c
  | some t =>
      let t' := { t with endpoints := [new_pop], status := TunnelStatus.Active }
      { c with state :=
          { c.state with tunnels := mapInsert c.state.tunnels tunnel_id t' } }

/-- The `for tunnel in affected_tunnels` loop of `handle_pop_failure`:
find the nearest healthy PoP for each affected tunnel and reroute it; the
`?` aborts on the first failure, keeping the reroutes already made. -/
def rerouteLoop (c : CentralController) :
    List Tunnel → Except ControllerError Unit × CentralController
  | [] => (Except.ok (), c)
  | t :: ts =>
      match c.find_nearest_healthy_pop t with
      | Except.error e => (Except.error e, c)
      | Except.ok new_pop => rerouteLoop (c.reroute_tunnel t.id new_pop) ts

/-- `CentralController::handle_pop_failure`: snapshot the tunnels whose
endpoints contain `pop_id`, then reroute each one. -/
def CentralController.handle_pop_failure (c : CentralController) (pop_id : String) :
    Except ControllerError Unit × CentralController :=
  let affected := (c.state.tunnels.map Prod.snd).filter
    (fun t => t.endpoints.contains pop_id)
  rerouteLoop c affected

-- ═══════════════════════════════════════════════════════════════════════
-- FailoverManager (`src/controller/mod.rs`, FAILOVER MANAGER)
-- ═══════════════════════════════════════════════════════════════════════

/-- Lease for leader election (`struct Lease`); timestamps as seconds. -/
structure Lease where
  holder : String
  acquired_at : Nat
  expires_at : Nat
  version : Nat
deriving DecidableEq, Repr

/-- Peer controller info (`struct PeerController`). -/
structure PeerController where
  id : String
  address : String
  last_heartbeat : Option String
deriving DecidableEq, Repr

/-- Failover manager (`struct FailoverManager`); the `AtomicRole` is a
plain `Role` in this single-thread model. -/
structure FailoverManager where
  node_id : String
  role : Role
  peers : List PeerController
  lease : Option Lease
  lease_duration_secs : Nat
deriving DecidableEq, Repr

/-- `FailoverManager::new`: starts `Secondary`, no lease, 15 s duration. -/
def FailoverManager.new (node_id : String) (peers : List PeerController) :
    FailoverManager :=
  { node_id := node_id, role := Role.Secondary, peers := peers,
    lease := none, lease_duration_secs := 15 }

/-- `FailoverManager::get_role`. -/
def FailoverManager.get_role (fm : FailoverManager) : Role := fm.role

/-- `FailoverManager::is_primary`. -/
def FailoverManager.is_primary (fm : FailoverManager) : Bool :=
  fm.role = Role.Primary

/-- `FailoverManager::acquire_lease`: unconditionally installs a fresh
version-1 lease expiring `lease_duration_secs` from now, stores role
`Primary` and returns `Ok(())` — no contention against other instances. -/
def FailoverManager.acquire_lease (fm : FailoverManager) (now : Nat) :
    Except ControllerError Unit × FailoverManager :=
  (Except.ok (),
   { fm with
       lease := some { holder := fm.node_id, acquired_at := now,
                       expires_at := now + fm.lease_duration_secs, version := 1 }
       role := Role.Primary })

/-- `FailoverManager::renew_lease`: with a lease held, push `expires_at`
to now plus the configured duration and bump the version; with no lease,
`NoLease` and no change. -/
def FailoverManager.renew_lease (fm : FailoverManager) (now : Nat) :
    Except ControllerError Unit × FailoverManager :=
  match fm.lease with
  | some l =>
      (Except.ok (),
       { fm with lease := some { l with
           expires_at := now + fm.lease_duration_secs,
           version := l.version + 1 } })
  | none => (Except.error ControllerError.NoLease, fm)

/-- `FailoverManager::step_down`: role back to `Secondary`, lease cleared. -/
def FailoverManager.step_down (fm : FailoverManager) : FailoverManager :=
  { fm with role := Role.Secondary, lease := none }

/-- Iterated `distribute_policy`: one call per `(policy, timestamp)` pair,
in order (the `Ok`/`Err` results are carried in the state pair; the Rust
caller would stop on an error, but the reference regional apply never
fails — see C9). -/
def distributeSeq (c : CentralController) :
    List (Policy × String) → CentralController
  | [] => c
  | (p, now) :: rest => distributeSeq (c.distribute_policy p now).2 rest

/-- The pops eligible as reroute targets, in iteration order: the
`self.state.pops.values().filter(|p| p.health.is_healthy())` part of
`find_nearest_healthy_pop`. -/
def eligiblePops (c : CentralController) : List PopInfo :=
  (c.state.pops.map Prod.snd).filter (fun p => p.health.is_healthy)

-- ═══════════════════════════════════════════════════════════════════════
-- Concrete example data for witnesses and counterexamples
-- ═══════════════════════════════════════════════════════════════════════

/-- A concrete controller configuration with one region. -/
def exConfig : ControllerConfig :=
  { node_id := "controller-1", bind_address := "0.0.0.0", grpc_port := 50051,
    regions := [{ val := "us-east" }], health := HealthConfig.default }

/-- A concrete policy with caller-supplied version `v`. -/
def exPolicy (v : Nat) : Policy :=
  { id := "firewall-1", name := "Default Firewall", version := v,
    policy_type := PolicyType.Firewall, rules := [], tenant_id := "tenant-1",
    target_pops := [], created_at := "t0", updated_at := "" }

/-- A concrete PoP with the given id and health. -/
def exPop (i : String) (h : HealthStatus) : PopInfo :=
  { id := i, location := "Virginia", region := "us-east", health := h,
    active_connections := 0, cpu_usage := 0, memory_usage := 0,
    bandwidth_mbps := 0, last_heartbeat := "" }

/-- A concrete tunnel `t1` with the given endpoints. -/
def exTunnel (eps : List String) : Tunnel :=
  { id := "t1", tenant_id := "tenant-1", name := "T1", endpoints := eps,
    client_location := "NYC", status := TunnelStatus.Inactive,
    bandwidth_limit_mbps := none }

/-- A controller over the given pops map and one tunnel `t1`. -/
def exController (pops : List (String × PopInfo)) (eps : List String) :
    CentralController :=
  { config := exConfig
    state := { policies := [], pops := pops,
               tunnels := [("t1", exTunnel eps)], routes := [] }
    regional_controllers := [] }

/-- A concrete heartbeat payload. -/
def exStatus : PopStatus :=
  { health := HealthStatus.Healthy, cpu_usage := 50, memory_usage := 70,
    active_connections := 500 }

-- ═══════════════════════════════════════════════════════════════════════
-- Theorems
-- ═══════════════════════════════════════════════════════════════════════

theorem version_policy_id (c : CentralController) (p : Policy) (now : String) :
    (c.version_policy p now).id = p.id := rfl

theorem distributePolicyWith_policies
    (apply : RegionalController → Policy → Except ControllerError Unit × RegionalController)
    (c : CentralController) (p : Policy) (now : String) :
    (c.distributePolicyWith apply p now).2.state.policies
      = mapInsert c.state.policies p.id (c.version_policy p now) := rfl

theorem distribute_policy_stored (c : CentralController) (p : Policy) (now : String) :
    mapGet (c.distribute_policy p now).2.state.policies p.id
      = some (c.version_policy p now) := by
  unfold CentralController.distribute_policy
  rw [distributePolicyWith_policies]
  exact mapGet_mapInsert_same _ _ _

theorem distribute_policy_stored_other (c : CentralController) (p : Policy)
    (now : String) (j : String) (hne : j ≠ p.id) :
    mapGet (c.distribute_policy p now).2.state.policies j
      = mapGet c.state.policies j := by
  unfold CentralController.distribute_policy
  rw [distributePolicyWith_policies]
  exact mapGet_mapInsert_other _ _ _ _ hne

theorem version_policy_version (c : CentralController) (p : Policy) (now : String) :
    (c.version_policy p now).version
      = ((mapGet c.state.policies p.id).map Policy.version).getD 0 + 1 := by
  unfold CentralController.version_policy
  cases mapGet c.state.policies p.id <;> simp

theorem distributeSeq_stored (i : String) :
    ∀ (ps : List (Policy × String)) (c : CentralController),
      (∀ x ∈ ps, x.1.id = i) →
      (((mapGet (distributeSeq c ps).state.policies i).map Policy.version).getD 0
          = ((mapGet c.state.policies i).map Policy.version).getD 0 + ps.length)
      ∧ (ps ≠ [] → mapGet (distributeSeq c ps).state.policies i ≠ none) := by
  intro ps
  induction ps with
  | nil => intro c _; simp [distributeSeq]
  | cons hd rest ih =>
      intro c hids
      obtain ⟨p, now⟩ := hd
      have hpid : p.id = i := hids (p, now) (List.mem_cons_self _ _)
      have hstep : mapGet (c.distribute_policy p now).2.state.policies i
          = some (c.version_policy p now) := by
        rw [← hpid]; exact distribute_policy_stored c p now
      have hv : (c.version_policy p now).version
          = ((mapGet c.state.policies i).map Policy.version).getD 0 + 1 := by
        rw [version_policy_version, hpid]
      have hrest := ih (c.distribute_policy p now).2
        (fun x hx => hids x (List.mem_cons_of_mem _ hx))
      simp only [distributeSeq]
      constructor
      · rw [hrest.1, hstep]
        simp only [Option.map_some', Option.getD_some, hv, List.length_cons]
        omega
      · intro _
        cases hrest0 : rest with
        | nil =>
            subst hrest0
            simp [distributeSeq, hstep]
        | cons a b =>
            subst hrest0
            exact hrest.2 (by simp)

/-- C1. Policy version monotonicity: starting from a state where policy id
`i` is unknown, a sequence of `distribute_policy` calls for policies
bearing id `i` (whatever version fields the callers supply) leaves a
stored policy whose version equals the number of calls (so the first call
stores version 1); and in general each single call stores exactly the
prior stored version plus 1, or 1 when the id is new. -/
theorem distribute_policy_version_monotonic
    (c : CentralController) (i : String) (ps : List (Policy × String))
    (h0 : mapGet c.state.policies i = none)
    (hi : ∀ x ∈ ps, x.1.id = i) (hne : ps ≠ []) :
    ((mapGet (distributeSeq c ps).state.policies i).map Policy.version = some ps.length)
  ∧ (∀ (d : CentralController) (q : Policy) (now : String),
      (mapGet (d.distribute_policy q now).2.state.policies q.id).map Policy.version
        = some (((mapGet d.state.policies q.id).map Policy.version).getD 0 + 1)) := by
  constructor
  · have h := distributeSeq_stored i ps c hi
    have hg : ((mapGet (distributeSeq c ps).state.policies i).map Policy.version).getD 0
        = ps.length := by
      rw [h.1, h0]; simp
    cases hfin : mapGet (distributeSeq c ps).state.policies i with
    | none => exact absurd hfin (h.2 hne)
    | some q =>
        rw [hfin] at hg
        simp at hg
        simp [hg]
  · intro d q now
    rw [distribute_policy_stored]
    simp [version_policy_version]

/-- Witness for C1: two distributions of `firewall-1` (with caller
versions 99 and 7) on a fresh controller leave stored version 2. -/
theorem distribute_policy_version_monotonic_witness :
    (mapGet (distributeSeq (CentralController.new exConfig)
        [(exPolicy 99, "t1"), (exPolicy 7, "t2")]).state.policies
      "firewall-1").map Policy.version = some 2 :=
  (distribute_policy_version_monotonic (CentralController.new exConfig) "firewall-1"
    [(exPolicy 99, "t1"), (exPolicy 7, "t2")]
    rfl (by intro x hx; simp [exPolicy] at hx ⊢; rcases hx with h | h <;> simp [h])
    (by simp)).1

theorem applyLoop_apply_policy_ok (p : Policy) :
    ∀ rcs : List (Region × RegionalController),
      (applyLoop RegionalController.apply_policy p rcs).1 = Except.ok () := by
  intro rcs
  induction rcs with
  | nil => rfl
  | cons hd rest ih =>
      obtain ⟨r, rc⟩ := hd
      simpa [applyLoop, RegionalController.apply_policy] using ih

/-- C9. The error-propagation branch of `distribute_policy` is dead in
the reference implementation: `RegionalController::apply_policy` returns
`Ok` for every input, so `distribute_policy` returns `Ok` for every
controller state and every policy. -/
theorem distribute_policy_never_fails :
    (∀ (rc : RegionalController) (p : Policy),
       (rc.apply_policy p).1 = Except.ok ())
  ∧ (∀ (c : CentralController) (p : Policy) (now : String),
       (c.distribute_policy p now).1 = Except.ok ()) := by
  constructor
  · intro rc p; rfl
  · intro c p now
    show (applyLoop RegionalController.apply_policy (c.version_policy p now)
        (c.insertPolicy (c.version_policy p now)).regional_controllers).1 = Except.ok ()
    exact applyLoop_apply_policy_ok _ _

theorem applyLoop_first_error
    (apply : RegionalController → Policy → Except ControllerError Unit × RegionalController)
    (p : Policy) (e : ControllerError) (r0 : Region) (rc0 : RegionalController) :
    ∀ (pre rest : List (Region × RegionalController)),
      (∀ x ∈ pre, (apply x.2 p).1 = Except.ok ()) →
      (apply rc0 p).1 = Except.error e →
      applyLoop apply p (pre ++ (r0, rc0) :: rest)
        = (Except.error e,
           pre.map (fun x => (x.1, (apply x.2 p).2)) ++ (r0, (apply rc0 p).2) :: rest) := by
  intro pre
  induction pre with
  | nil =>
      intro rest _ hfail
      simp [applyLoop, hfail]
  | cons hd tl ih =>
      intro rest hpre hfail
      obtain ⟨r, rc⟩ := hd
      have hok : (apply rc p).1 = Except.ok () := hpre (r, rc) (List.mem_cons_self _ _)
      have htl := ih rest (fun x hx => hpre x (List.mem_cons_of_mem _ hx)) hfail
      simp [applyLoop, hok, htl]

/-- C4. Eager-abort, non-atomic distribution: `distribute_policy` inserts
the newly versioned policy into the central map before any regional apply
runs, so when the regional apply (abstracted here, since the reference
regional apply never fails — see C9) rejects
the policy at the first failing region, the whole call returns that first
error, the central map still holds the new version (one above the prior
stored version; no rollback), and the regions after the failing one are
left untouched. -/
theorem distribute_policy_eager_abort
    (apply : RegionalController → Policy → Except ControllerError Unit × RegionalController)
    (c : CentralController) (p : Policy) (now : String)
    (pre rest : List (Region × RegionalController))
    (r0 : Region) (rc0 : RegionalController) (e : ControllerError)
    (hsplit : c.regional_controllers = pre ++ (r0, rc0) :: rest)
    (hpre : ∀ x ∈ pre, (apply x.2 (c.version_policy p now)).1 = Except.ok ())
    (hfail : (apply rc0 (c.version_policy p now)).1 = Except.error e) :
    (c.distributePolicyWith apply p now).1 = Except.error e
  ∧ mapGet (c.distributePolicyWith apply p now).2.state.policies p.id
      = some (c.version_policy p now)
  ∧ (c.version_policy p now).version
      = ((mapGet c.state.policies p.id).map Policy.version).getD 0 + 1
  ∧ (c.distributePolicyWith apply p now).2.regional_controllers
      = pre.map (fun x => (x.1, (apply x.2 (c.version_policy p now)).2))
          ++ (r0, (apply rc0 (c.version_policy p now)).2) :: rest := by
  have hloop := applyLoop_first_error apply (c.version_policy p now) e r0 rc0 pre rest hpre hfail
  have hrc : (c.insertPolicy (c.version_policy p now)).regional_controllers
      = c.regional_controllers := rfl
  refine ⟨?_, ?_, version_policy_version c p now, ?_⟩
  · show (applyLoop apply (c.version_policy p now)
        (c.insertPolicy (c.version_policy p now)).regional_controllers).1 = Except.error e
    rw [hrc, hsplit, hloop]
  · rw [distributePolicyWith_policies]
    exact mapGet_mapInsert_same _ _ _
  · show (applyLoop apply (c.version_policy p now)
        (c.insertPolicy (c.version_policy p now)).regional_controllers).2 = _
    rw [hrc, hsplit, hloop]

/-- Witness for C4: a single-region controller whose regional apply is
replaced by one that always rejects; the configured distribution of
`firewall-1` returns that error while the central map holds version 1. -/
theorem distribute_policy_eager_abort_witness :
    (let failingApply : RegionalController → Policy →
        Except ControllerError Unit × RegionalController :=
      fun rc _ => (Except.error (ControllerError.PolicyDistributionFailed "region down"), rc)
     let c := CentralController.new exConfig
     ((c.distributePolicyWith failingApply (exPolicy 99) "t1").1
        = Except.error (ControllerError.PolicyDistributionFailed "region down"))
     ∧ mapGet (c.distributePolicyWith failingApply (exPolicy 99) "t1").2.state.policies
         "firewall-1" = some (c.version_policy (exPolicy 99) "t1")) := by
  refine ⟨?_, ?_⟩
  · exact (distribute_policy_eager_abort _ (CentralController.new exConfig)
      (exPolicy 99) "t1" [] [] { val := "us-east" }
      (RegionalController.new { val := "us-east" })
      (ControllerError.PolicyDistributionFailed "region down")
      rfl (by intro x hx; simp at hx) rfl).1
  · exact (distribute_policy_eager_abort _ (CentralController.new exConfig)
      (exPolicy 99) "t1" [] [] { val := "us-east" }
      (RegionalController.new { val := "us-east" })
      (ControllerError.PolicyDistributionFailed "region down")
      rfl (by intro x hx; simp at hx) rfl).2.1

theorem trackerOf_record_success (m : HealthMonitor) (pid : String) :
    (m.record_success pid).trackerOf pid =
      { consecutive_successes := (m.trackerOf pid).consecutive_successes + 1
        consecutive_failures := 0
        current_status :=
          if (m.trackerOf pid).consecutive_successes + 1 ≥ m.config.healthy_threshold
          then HealthStatus.Healthy else (m.trackerOf pid).current_status } := by
  unfold HealthMonitor.record_success HealthMonitor.trackerOf
  simp only [mapGet_mapInsert_same, Option.getD_some]
  by_cases h : (((mapGet m.pop_health pid).getD HealthTracker.initial).consecutive_successes + 1
      ≥ m.config.healthy_threshold) <;> simp [h]

theorem trackerOf_record_failure (m : HealthMonitor) (pid : String) :
    (m.record_failure pid).trackerOf pid =
      { consecutive_failures := (m.trackerOf pid).consecutive_failures + 1
        consecutive_successes := 0
        current_status :=
          if (m.trackerOf pid).consecutive_failures + 1 ≥ m.config.unhealthy_threshold
          then HealthStatus.Unhealthy else HealthStatus.Degraded } := by
  unfold HealthMonitor.record_failure HealthMonitor.trackerOf
  simp only [mapGet_mapInsert_same, Option.getD_some]
  by_cases h : (((mapGet m.pop_health pid).getD HealthTracker.initial).consecutive_failures + 1
      ≥ m.config.unhealthy_threshold) <;> simp [h]

/-- C2. Health hysteresis, fast degrade and slow recover.  With
`healthy_threshold = 2` and `unhealthy_threshold = 3`, a PoP starting
`Unknown` reaches `Healthy` after two successes, drops to `Degraded` (not
`Unhealthy`) on the next failure, and to `Unhealthy` after two further
consecutive failures.  In general `record_success` bumps the success run,
clears the failure run, and flips the status to `Healthy` exactly when the
success run reaches `healthy_threshold`, leaving it unchanged otherwise;
`record_failure` bumps the failure run, clears the success run, and sets
`Unhealthy` at `unhealthy_threshold`, `Degraded` below it. -/
theorem health_hysteresis (cfg : HealthConfig) (pid : String)
    (h2 : cfg.healthy_threshold = 2) (h3 : cfg.unhealthy_threshold = 3) :
    (let m0 := HealthMonitor.new cfg
     let m1 := m0.record_success pid
     let m2 := m1.record_success pid
     let m3 := m2.record_failure pid
     let m4 := m3.record_failure pid
     let m5 := m4.record_failure pid
     m0.get_status pid = HealthStatus.Unknown ∧
     m2.get_status pid = HealthStatus.Healthy ∧
     m3.get_status pid = HealthStatus.Degraded ∧
     m5.get_status pid = HealthStatus.Unhealthy)
  ∧ (∀ (m : HealthMonitor) (q : String),
      ((m.record_success q).trackerOf q).consecutive_successes
          = (m.trackerOf q).consecutive_successes + 1
      ∧ ((m.record_success q).trackerOf q).consecutive_failures = 0
      ∧ ((m.record_success q).trackerOf q).current_status =
          (if (m.trackerOf q).consecutive_successes + 1 ≥ m.config.healthy_threshold
           then HealthStatus.Healthy else (m.trackerOf q).current_status)
      ∧ ((m.record_failure q).trackerOf q).consecutive_failures
          = (m.trackerOf q).consecutive_failures + 1
      ∧ ((m.record_failure q).trackerOf q).consecutive_successes = 0
      ∧ ((m.record_failure q).trackerOf q).current_status =
          (if (m.trackerOf q).consecutive_failures + 1 ≥ m.config.unhealthy_threshold
           then HealthStatus.Unhealthy else HealthStatus.Degraded)) := by
  constructor
  · obtain ⟨ci, ut, ht⟩ := cfg
    simp only at h2 h3
    subst h2
    subst h3
    refine ⟨?_, ?_, ?_, ?_⟩ <;>
      simp [HealthMonitor.new, HealthMonitor.record_success, HealthMonitor.record_failure,
        HealthMonitor.get_status, HealthMonitor.trackerOf, HealthTracker.initial,
        mapGet, mapInsert]
  · intro m q
    refine ⟨?_, ?_, ?_, ?_, ?_, ?_⟩ <;>
      simp [trackerOf_record_success, trackerOf_record_failure]

/-- Witness for C2: the hysteresis sequence on the default configuration
(`healthy_threshold = 2`, `unhealthy_threshold = 3`) for PoP `pop-1`. -/
theorem health_hysteresis_witness :
    (let m0 := HealthMonitor.new HealthConfig.default
     let m1 := m0.record_success "pop-1"
     let m2 := m1.record_success "pop-1"
     let m3 := m2.record_failure "pop-1"
     let m4 := m3.record_failure "pop-1"
     let m5 := m4.record_failure "pop-1"
     m0.get_status "pop-1" = HealthStatus.Unknown ∧
     m2.get_status "pop-1" = HealthStatus.Healthy ∧
     m3.get_status "pop-1" = HealthStatus.Degraded ∧
     m5.get_status "pop-1" = HealthStatus.Unhealthy) :=
  (health_hysteresis HealthConfig.default "pop-1" rfl rfl).1

/-- C8. Lease lifecycle: a fresh `FailoverManager` is `Secondary` with no
lease; `acquire_lease` always succeeds, installing a version-1 lease for
this node expiring one duration from now and storing role `Primary`;
`step_down` returns to `Secondary` and clears the lease; `renew_lease`
with no lease fails with `NoLease` and changes nothing, and with a lease
held succeeds, pushes `expires_at` one duration past now and bumps the
lease version. -/
theorem lease_lifecycle :
    (∀ (nid : String) (peers : List PeerController),
       (FailoverManager.new nid peers).get_role = Role.Secondary ∧
       (FailoverManager.new nid peers).lease = none)
  ∧ (∀ (fm : FailoverManager) (now : Nat),
       (fm.acquire_lease now).1 = Except.ok () ∧
       (fm.acquire_lease now).2.get_role = Role.Primary ∧
       (fm.acquire_lease now).2.is_primary = true ∧
       (fm.acquire_lease now).2.lease =
         some { holder := fm.node_id, acquired_at := now,
                expires_at := now + fm.lease_duration_secs, version := 1 })
  ∧ (∀ fm : FailoverManager,
       fm.step_down.get_role = Role.Secondary ∧ fm.step_down.lease = none)
  ∧ (∀ (fm : FailoverManager) (now : Nat), fm.lease = none →
       fm.renew_lease now = (Except.error ControllerError.NoLease, fm))
  ∧ (∀ (fm : FailoverManager) (now : Nat) (l : Lease), fm.lease = some l →
       (fm.renew_lease now).1 = Except.ok () ∧
       (fm.renew_lease now).2.lease =
         some { l with expires_at := now + fm.lease_duration_secs,
                       version := l.version + 1 }) := by
  refine ⟨?_, ?_, ?_, ?_, ?_⟩
  · intro nid peers
    exact ⟨rfl, rfl⟩
  · intro fm now
    exact ⟨rfl, rfl, by simp [FailoverManager.is_primary, FailoverManager.acquire_lease], rfl⟩
  · intro fm
    exact ⟨rfl, rfl⟩
  · intro fm now h
    simp [FailoverManager.renew_lease, h]
  · intro fm now l h
    simp [FailoverManager.renew_lease, h]

/-- Witness for C8: the lifecycle on a concrete manager `node-1` with one
peer, acquiring at time 100 and renewing at time 110. -/
theorem lease_lifecycle_witness :
    (let fm0 := FailoverManager.new "node-1"
       [{ id := "node-2", address := "10.0.0.2:50051", last_heartbeat := none }]
     fm0.get_role = Role.Secondary ∧ fm0.lease = none)
  ∧ (let fm0 := FailoverManager.new "node-1" []
     (fm0.acquire_lease 100).2.get_role = Role.Primary)
  ∧ (let fm0 := FailoverManager.new "node-1" []
     fm0.renew_lease 0 = (Except.error ControllerError.NoLease, fm0))
  ∧ (let fm1 := ((FailoverManager.new "node-1" []).acquire_lease 100).2
     (fm1.renew_lease 110).2.lease =
       some { holder := "node-1", acquired_at := 100, expires_at := 125, version := 2 }) := by
  refine ⟨lease_lifecycle.1 "node-1" _, (lease_lifecycle.2.1 _ 100).2.1, ?_, ?_⟩
  · exact lease_lifecycle.2.2.2.1 _ 0 rfl
  · have h := (lease_lifecycle.2.2.2.2 ((FailoverManager.new "node-1" []).acquire_lease 100).2
      110 { holder := "node-1", acquired_at := 100, expires_at := 115, version := 1 } rfl).2
    simpa using h

theorem insertByLatency_append (x : String × ℚ) :
    ∀ l : List (String × ℚ), (∀ y ∈ l, ¬ x.2 < y.2) → insertByLatency x l = l ++ [x] := by
  intro l
  induction l with
  | nil => intro _; rfl
  | cons y ys ih =>
      intro h
      have hy : ¬ x.2 < y.2 := h y (List.mem_cons_self _ _)
      simp only [insertByLatency, if_neg hy, List.cons_append]
      rw [ih (fun z hz => h z (List.mem_cons_of_mem _ hz))]

theorem foldl_insertByLatency_const (q : ℚ) :
    ∀ (l acc : List (String × ℚ)), (∀ x ∈ l, x.2 = q) → (∀ x ∈ acc, x.2 = q) →
      l.foldl (fun a x => insertByLatency x a) acc = acc ++ l := by
  intro l
  induction l with
  | nil => intro acc _ _; simp
  | cons x xs ih =>
      intro acc hl hacc
      have hx : x.2 = q := hl x (List.mem_cons_self _ _)
      have hins : insertByLatency x acc = acc ++ [x] := by
        refine insertByLatency_append x acc (fun y hy => ?_)
        rw [hx, hacc y hy]
        exact lt_irrefl q
      have hacc2 : ∀ z ∈ acc ++ [x], z.2 = q := by
        intro z hz
        rcases List.mem_append.mp hz with h | h
        · exact hacc z h
        · simp at h; rw [h, hx]
      have := ih (acc ++ [x]) (fun z hz => hl z (List.mem_cons_of_mem _ hz)) hacc2
      simp only [List.foldl_cons, hins, this, List.append_assoc, List.singleton_append]

theorem sortByLatency_const (l : List (String × ℚ)) (q : ℚ)
    (h : ∀ x ∈ l, x.2 = q) : sortByLatency l = l := by
  unfold sortByLatency
  simpa using foldl_insertByLatency_const q l [] h (by intro x hx; simp at hx)

theorem healthyCandidates_eq (c : CentralController) (t : Tunnel) :
    c.healthyCandidates t = (eligiblePops c).map (fun p => (p.id, (10 : ℚ))) := rfl

theorem find_nearest_eq_head (c : CentralController) (t : Tunnel) :
    c.find_nearest_healthy_pop t =
      match (eligiblePops c).head? with
      | some p => Except.ok p.id
      | none => Except.error ControllerError.NoHealthyPops := by
  unfold CentralController.find_nearest_healthy_pop
  rw [healthyCandidates_eq, sortByLatency_const _ 10
    (by intro x hx; simp [List.mem_map] at hx; obtain ⟨p, _, rfl⟩ := hx; rfl)]
  rw [List.head?_map]
  cases (eligiblePops c).head? <;> rfl

/-- C5. No-healthy-PoP case: when no PoP in the state is `Healthy` or
`Degraded` and at least one tunnel contains the failed `pop_id` in its
endpoints, `handle_pop_failure` returns `NoHealthyPops` and leaves the
whole controller state — every tunnel included — exactly unchanged. -/
theorem handle_pop_failure_no_healthy (c : CentralController) (pop_id : String)
    (hall : ∀ x ∈ c.state.pops, (x.2 : PopInfo).health.is_healthy = false)
    (hex : ∃ x ∈ c.state.tunnels, pop_id ∈ (x.2 : Tunnel).endpoints) :
    c.handle_pop_failure pop_id = (Except.error ControllerError.NoHealthyPops, c) := by
  have helig : eligiblePops c = [] := by
    unfold eligiblePops
    rw [List.filter_eq_nil_iff]
    intro p hp
    rcases List.mem_map.mp hp with ⟨x, hx, rfl⟩
    simp [hall x hx]
  have hfind : ∀ t, c.find_nearest_healthy_pop t
      = Except.error ControllerError.NoHealthyPops := by
    intro t
    rw [find_nearest_eq_head, helig]
    rfl
  obtain ⟨x, hx, hmem⟩ := hex
  have haffne : (c.state.tunnels.map Prod.snd).filter
      (fun t => t.endpoints.contains pop_id) ≠ [] := by
    intro hnil
    rw [List.filter_eq_nil_iff] at hnil
    exact hnil x.2 (List.mem_map_of_mem _ hx) (by simpa using hmem)
  show rerouteLoop c ((c.state.tunnels.map Prod.snd).filter
      (fun t => t.endpoints.contains pop_id)) = _
  cases haff : (c.state.tunnels.map Prod.snd).filter
      (fun t => t.endpoints.contains pop_id) with
  | nil => exact absurd haff haffne
  | cons t ts => simp [rerouteLoop, hfind t]

/-- Witness for C5: both `pop-A` and `pop-B` are `Unhealthy`, tunnel `t1`
uses `pop-A`; `handle_pop_failure "pop-A"` fails with `NoHealthyPops` and
the controller is unchanged. -/
theorem handle_pop_failure_no_healthy_witness :
    (exController [("pop-A", exPop "pop-A" HealthStatus.Unhealthy),
                   ("pop-B", exPop "pop-B" HealthStatus.Unhealthy)]
        ["pop-A"]).handle_pop_failure "pop-A"
      = (Except.error ControllerError.NoHealthyPops,
         exController [("pop-A", exPop "pop-A" HealthStatus.Unhealthy),
                       ("pop-B", exPop "pop-B" HealthStatus.Unhealthy)] ["pop-A"]) := by
  refine handle_pop_failure_no_healthy _ "pop-A" ?_ ?_
  · intro x hx
    simp [exController, exPop] at hx
    rcases hx with h | h <;> simp [h, HealthStatus.is_healthy]
  · refine ⟨("t1", exTunnel ["pop-A"]), ?_, ?_⟩
    · simp [exController]
    · simp [exTunnel]

theorem mapGet_some_mem {β : Type} :
    ∀ (l : List (String × β)) (k : String) (v : β),
      mapGet l k = some v → (k, v) ∈ l := by
  intro l
  induction l with
  | nil => intro k v h; simp [mapGet] at h
  | cons hd tl ih =>
      intro k v h
      obtain ⟨k', v'⟩ := hd
      by_cases hk : k = k'
      · subst hk
        simp [mapGet] at h
        subst h
        exact List.mem_cons_self _ _
      · simp [mapGet, hk] at h
        exact List.mem_cons_of_mem _ (ih k v h)

theorem mapGet_of_mem_nodup {β : Type} :
    ∀ (l : List (String × β)) (k : String) (v : β),
      (l.map Prod.fst).Nodup → (k, v) ∈ l → mapGet l k = some v := by
  intro l
  induction l with
  | nil => intro k v _ h; simp at h
  | cons hd tl ih =>
      intro k v hnd hmem
      obtain ⟨k', v'⟩ := hd
      simp only [List.map_cons, List.nodup_cons] at hnd
      rcases List.mem_cons.mp hmem with h | h
      · obtain ⟨rfl, rfl⟩ := Prod.mk.injEq .. ▸ h
        · simp [mapGet]
      · have hkmem : k ∈ tl.map Prod.fst := List.mem_map_of_mem Prod.fst h
        have hne : k ≠ k' := by
          intro hkk
          exact hnd.1 (hkk ▸ hkmem)
        simp [mapGet, hne, ih k v hnd.2 h]

theorem mapInsert_self {β : Type} :
    ∀ (l : List (String × β)) (k : String) (v : β),
      mapGet l k = some v → mapInsert l k v = l := by
  intro l
  induction l with
  | nil => intro k v h; simp [mapGet] at h
  | cons hd tl ih =>
      intro k v h
      obtain ⟨k', v'⟩ := hd
      by_cases hk : k = k'
      · subst hk
        simp [mapGet] at h
        simp [mapInsert, h]
      · simp [mapGet, hk] at h
        simp [mapInsert, hk, ih k v h]

theorem reroute_tunnel_pops (c : CentralController) (a b : String) :
    (c.reroute_tunnel a b).state.pops = c.state.pops := by
  unfold CentralController.reroute_tunnel
  cases mapGet c.state.tunnels a <;> rfl

theorem eligiblePops_reroute (c : CentralController) (a b : String) :
    eligiblePops (c.reroute_tunnel a b) = eligiblePops c := by
  unfold eligiblePops
  rw [reroute_tunnel_pops]

theorem reroute_tunnel_tunnels (c : CentralController) (t : Tunnel) (np : String)
    (h : mapGet c.state.tunnels t.id = some t) :
    (c.reroute_tunnel t.id np).state.tunnels
      = mapInsert c.state.tunnels t.id
          { t with endpoints := [np], status := TunnelStatus.Active } := by
  unfold CentralController.reroute_tunnel
  rw [h]

theorem rerouteLoop_eq_fold (p0 : PopInfo) :
    ∀ (ts : List Tunnel) (c : CentralController),
      (eligiblePops c).head? = some p0 →
      rerouteLoop c ts
        = (Except.ok (), ts.foldl (fun d t => d.reroute_tunnel t.id p0.id) c) := by
  intro ts
  induction ts with
  | nil => intro c _; rfl
  | cons t ts' ih =>
      intro c hfirst
      have hfind : c.find_nearest_healthy_pop t = Except.ok p0.id := by
        rw [find_nearest_eq_head, hfirst]
      simp only [rerouteLoop, hfind, List.foldl_cons]
      exact ih (c.reroute_tunnel t.id p0.id)
        (by rw [eligiblePops_reroute]; exact hfirst)

theorem foldl_reroute_get (np : String) :
    ∀ (ts : List Tunnel) (c : CentralController) (key : String),
      (∀ t ∈ ts, mapGet c.state.tunnels t.id = some t) →
      (ts.map Tunnel.id).Nodup →
      mapGet (ts.foldl (fun d t => d.reroute_tunnel t.id np) c).state.tunnels key
        = if ∃ t ∈ ts, t.id = key
          then (mapGet c.state.tunnels key).map
            (fun t => { t with endpoints := [np], status := TunnelStatus.Active })
          else mapGet c.state.tunnels key := by
  intro ts
  induction ts with
  | nil =>
      intro c key _ _
      simp
  | cons t ts' ih =>
      intro c key hpend hnd
      have ht : mapGet c.state.tunnels t.id = some t := hpend t (List.mem_cons_self _ _)
      have htuns := reroute_tunnel_tunnels c t np ht
      simp only [List.map_cons, List.nodup_cons] at hnd
      have hpend' : ∀ u ∈ ts', mapGet (c.reroute_tunnel t.id np).state.tunnels u.id = some u := by
        intro u hu
        have hne : u.id ≠ t.id := by
          intro huv
          exact hnd.1 (huv ▸ List.mem_map_of_mem Tunnel.id hu)
        rw [htuns, mapGet_mapInsert_other _ _ _ _ hne]
        exact hpend u (List.mem_cons_of_mem _ hu)
      simp only [List.foldl_cons]
      rw [ih (c.reroute_tunnel t.id np) key hpend' hnd.2]
      by_cases hk : ∃ u ∈ ts', u.id = key
      · obtain ⟨u, hu, hukey⟩ := hk
        have htk : t.id ≠ key := by
          intro hteq
          exact hnd.1 (hteq ▸ hukey ▸ List.mem_map_of_mem Tunnel.id hu)
        have hcons : ∃ u ∈ t :: ts', u.id = key :=
          ⟨u, List.mem_cons_of_mem _ hu, hukey⟩
        rw [if_pos ⟨u, hu, hukey⟩, if_pos hcons, htuns,
          mapGet_mapInsert_other _ _ _ _ (Ne.symm htk)]
      · by_cases hkt : t.id = key
        · subst hkt
          have hcons : ∃ u ∈ t :: ts', u.id = t.id := ⟨t, List.mem_cons_self _ _, rfl⟩
          rw [if_neg hk, if_pos hcons, htuns, mapGet_mapInsert_same, ht]
          rfl
        · have hcons : ¬ ∃ u ∈ t :: ts', u.id = key := by
            rintro ⟨u, hu, hukey⟩
            rcases List.mem_cons.mp hu with rfl | hmem
            · exact hkt hukey
            · exact hk ⟨u, hmem, hukey⟩
          rw [if_neg hk, if_neg hcons, htuns,
            mapGet_mapInsert_other _ _ _ _ (fun hkey => hkt hkey.symm)]

/-- C3 (amended). Rerouting after a PoP failure: for a well-formed state
(tunnel map keys match tunnel ids and are distinct) with at least one
eligible (Healthy or Degraded) PoP, the first such PoP `p0` in the pops
map's iteration order is chosen — all computed latencies are the constant
`10.0`, so `p0` is a latency minimiser among the eligible pops —
`handle_pop_failure pop_id` succeeds, every tunnel whose endpoints contain
`pop_id` ends with endpoint list `[p0.id]` and status `Active`, and every
other tunnel is unchanged. -/
theorem handle_pop_failure_reroutes (c : CentralController) (pop_id : String)
    (p0 : PopInfo)
    (hwf : ∀ x ∈ c.state.tunnels, (x.2 : Tunnel).id = x.1)
    (hnd : (c.state.tunnels.map Prod.fst).Nodup)
    (hfirst : (eligiblePops c).head? = some p0) :
    (c.handle_pop_failure pop_id).1 = Except.ok ()
  ∧ (∀ key, mapGet (c.handle_pop_failure pop_id).2.state.tunnels key
      = (mapGet c.state.tunnels key).map
          (fun t => if pop_id ∈ t.endpoints
                    then { t with endpoints := [p0.id], status := TunnelStatus.Active }
                    else t))
  ∧ p0.health.is_healthy = true
  ∧ p0 ∈ c.state.pops.map Prod.snd
  ∧ (∀ (t : Tunnel), ∀ q ∈ eligiblePops c,
      p0.latency_to t.client_location ≤ q.latency_to t.client_location) := by
  have hkeys : c.state.tunnels.map (fun x => (x.2 : Tunnel).id) = c.state.tunnels.map Prod.fst :=
    List.map_congr_left (fun x hx => hwf x hx)
  have hpend : ∀ t ∈ (c.state.tunnels.map Prod.snd).filter
      (fun t => t.endpoints.contains pop_id), mapGet c.state.tunnels t.id = some t := by
    intro t htf
    have htv : t ∈ c.state.tunnels.map Prod.snd := (List.mem_filter.mp htf).1
    obtain ⟨x, hx, rfl⟩ := List.mem_map.mp htv
    rw [hwf x hx]
    exact mapGet_of_mem_nodup _ _ _ hnd (by rw [← Prod.mk.eta (p := x)] at hx; exact hx)
  have hndaff : (((c.state.tunnels.map Prod.snd).filter
      (fun t => t.endpoints.contains pop_id)).map Tunnel.id).Nodup := by
    have hsub : List.Sublist
        (((c.state.tunnels.map Prod.snd).filter
          (fun t => t.endpoints.contains pop_id)).map Tunnel.id)
        ((c.state.tunnels.map Prod.snd).map Tunnel.id) :=
      (List.filter_sublist _).map Tunnel.id
    have : (c.state.tunnels.map Prod.snd).map Tunnel.id = c.state.tunnels.map Prod.fst := by
      rw [List.map_map]
      exact hkeys
    exact List.Nodup.sublist (this ▸ hsub) hnd
  have hloop := rerouteLoop_eq_fold p0 ((c.state.tunnels.map Prod.snd).filter
      (fun t => t.endpoints.contains pop_id)) c hfirst
  have hp0mem : p0 ∈ eligiblePops c :=
    List.mem_of_mem_head? (Option.mem_def.mpr hfirst)
  have hp0f := List.mem_filter.mp hp0mem
  refine ⟨?_, ?_, hp0f.2, hp0f.1, ?_⟩
  · show (rerouteLoop c _).1 = Except.ok ()
    rw [hloop]
  · intro key
    show mapGet (rerouteLoop c _).2.state.tunnels key = _
    rw [hloop]
    simp only
    rw [foldl_reroute_get p0.id _ c key hpend hndaff]
    by_cases hex : ∃ t ∈ (c.state.tunnels.map Prod.snd).filter
        (fun t => t.endpoints.contains pop_id), t.id = key
    · rw [if_pos hex]
      obtain ⟨t, htf, htk⟩ := hex
      have hg : mapGet c.state.tunnels key = some t := htk ▸ hpend t htf
      have hpe : pop_id ∈ t.endpoints := by
        have := (List.mem_filter.mp htf).2
        simpa using this
      rw [hg]
      simp [hpe]
    · rw [if_neg hex]
      cases hg : mapGet c.state.tunnels key with
      | none => rfl
      | some t0 =>
          have ht0mem : (key, t0) ∈ c.state.tunnels := mapGet_some_mem _ _ _ hg
          have ht0id : t0.id = key := hwf (key, t0) ht0mem
          have ht0v : t0 ∈ c.state.tunnels.map Prod.snd :=
            List.mem_map_of_mem Prod.snd ht0mem
          have hnpe : pop_id ∉ t0.endpoints := by
            intro hpe
            exact hex ⟨t0, List.mem_filter.mpr ⟨ht0v, by simpa using hpe⟩, ht0id⟩
          simp [hnpe]
  · intro t q _
    simp [PopInfo.latency_to]

/-- Counterexample for C3 as stated: the scenario premise "pop-B Healthy
with lower computed latency than Healthy pop-C" is unsatisfiable, because
the reference latency function is the constant `10.0`: pop-B's computed
latency equals pop-C's and is never lower. -/
theorem rerouting_latency_premise_unsatisfiable :
    (exPop "pop-B" HealthStatus.Healthy).latency_to "NYC"
      = (exPop "pop-C" HealthStatus.Healthy).latency_to "NYC"
  ∧ ¬ ((exPop "pop-B" HealthStatus.Healthy).latency_to "NYC"
      < (exPop "pop-C" HealthStatus.Healthy).latency_to "NYC") :=
  ⟨rfl, by simp [PopInfo.latency_to]⟩

/-- Witness for C3 (amended): pop-A `Unhealthy`, pop-B and pop-C `Healthy`
(equal latencies, pop-B first in iteration order), tunnel `t1` on pop-A;
`handle_pop_failure "pop-A"` succeeds, leaving `t1.endpoints = ["pop-B"]`
and status `Active`. -/
theorem handle_pop_failure_reroutes_witness :
    (let c := exController
        [("pop-A", exPop "pop-A" HealthStatus.Unhealthy),
         ("pop-B", exPop "pop-B" HealthStatus.Healthy),
         ("pop-C", exPop "pop-C" HealthStatus.Healthy)] ["pop-A"]
     ((c.handle_pop_failure "pop-A").1 = Except.ok ())
     ∧ mapGet (c.handle_pop_failure "pop-A").2.state.tunnels "t1"
         = some { exTunnel ["pop-A"] with endpoints := ["pop-B"], status := TunnelStatus.Active }) := by
  have h := handle_pop_failure_reroutes
    (exController
      [("pop-A", exPop "pop-A" HealthStatus.Unhealthy),
       ("pop-B", exPop "pop-B" HealthStatus.Healthy),
       ("pop-C", exPop "pop-C" HealthStatus.Healthy)] ["pop-A"])
    "pop-A" (exPop "pop-B" HealthStatus.Healthy)
    (by intro x hx; simp [exController, exTunnel] at hx; simp [hx, exTunnel])
    (by simp [exController])
    (by rfl)
  refine ⟨h.1, ?_⟩
  have h2 := h.2.1 "t1"
  rw [h2]
  simp [exController, mapGet, exTunnel, exPop]

/-- C6 (amended). The nearest-PoP choice is the first eligible PoP in the
pops map's iteration order: the latency function is constant, so the
stable sort leaves the candidate order untouched and `first()` wins. -/
theorem nearest_pop_selection_first_eligible (c : CentralController) (t : Tunnel)
    (p : PopInfo) (rest : List PopInfo)
    (h : eligiblePops c = p :: rest) :
    c.find_nearest_healthy_pop t = Except.ok p.id := by
  rw [find_nearest_eq_head, h]
  rfl

/-- Witness for C6 (amended): with pops iterated as `pop-A, pop-B` (both
`Healthy`), `pop-A` is chosen. -/
theorem nearest_pop_selection_first_eligible_witness :
    (exController [("pop-A", exPop "pop-A" HealthStatus.Healthy),
                   ("pop-B", exPop "pop-B" HealthStatus.Healthy)]
        ["pop-X"]).find_nearest_healthy_pop (exTunnel ["pop-X"])
      = Except.ok "pop-A" :=
  nearest_pop_selection_first_eligible _ _
    (exPop "pop-A" HealthStatus.Healthy) [exPop "pop-B" HealthStatus.Healthy] rfl

/-- Counterexample for C6 as stated: two controllers whose `GlobalState`
maps hold exactly the same entries (`pops` maps are permutations of one
another — equal as Rust `HashMap`s — and the other maps are equal), all
candidate latencies tie at the constant `10.0`, yet
`find_nearest_healthy_pop` chooses `pop-A` in one and `pop-B` in the
other: the choice follows the map's iteration order, which is not a
function of the state's contents. -/
theorem nearest_pop_tie_break_order_dependent :
    (exController [("pop-A", exPop "pop-A" HealthStatus.Healthy),
                   ("pop-B", exPop "pop-B" HealthStatus.Healthy)] ["pop-X"]).state.pops.Perm
      (exController [("pop-B", exPop "pop-B" HealthStatus.Healthy),
                     ("pop-A", exPop "pop-A" HealthStatus.Healthy)] ["pop-X"]).state.pops
  ∧ (exController [("pop-A", exPop "pop-A" HealthStatus.Healthy),
                   ("pop-B", exPop "pop-B" HealthStatus.Healthy)] ["pop-X"]).state.tunnels
      = (exController [("pop-B", exPop "pop-B" HealthStatus.Healthy),
                       ("pop-A", exPop "pop-A" HealthStatus.Healthy)] ["pop-X"]).state.tunnels
  ∧ (exController [("pop-A", exPop "pop-A" HealthStatus.Healthy),
                   ("pop-B", exPop "pop-B" HealthStatus.Healthy)] ["pop-X"]).state.policies
      = (exController [("pop-B", exPop "pop-B" HealthStatus.Healthy),
                       ("pop-A", exPop "pop-A" HealthStatus.Healthy)] ["pop-X"]).state.policies
  ∧ (exController [("pop-A", exPop "pop-A" HealthStatus.Healthy),
                   ("pop-B", exPop "pop-B" HealthStatus.Healthy)] ["pop-X"]).state.routes
      = (exController [("pop-B", exPop "pop-B" HealthStatus.Healthy),
                       ("pop-A", exPop "pop-A" HealthStatus.Healthy)] ["pop-X"]).state.routes
  ∧ ((exPop "pop-A" HealthStatus.Healthy).latency_to "NYC"
      = (exPop "pop-B" HealthStatus.Healthy).latency_to "NYC")
  ∧ (exController [("pop-A", exPop "pop-A" HealthStatus.Healthy),
                   ("pop-B", exPop "pop-B" HealthStatus.Healthy)]
        ["pop-X"]).find_nearest_healthy_pop (exTunnel ["pop-X"]) = Except.ok "pop-A"
  ∧ (exController [("pop-B", exPop "pop-B" HealthStatus.Healthy),
                   ("pop-A", exPop "pop-A" HealthStatus.Healthy)]
        ["pop-X"]).find_nearest_healthy_pop (exTunnel ["pop-X"]) = Except.ok "pop-B" := by
  refine ⟨List.Perm.swap _ _ _, rfl, rfl, rfl, rfl, rfl, rfl⟩

/-- C7 (amended). Heartbeat idempotence up to the timestamp: a second
`process_heartbeat` with the identical payload leaves the PoP record
identical in every field except `last_heartbeat`, which carries the
second call's clock reading; other PoPs are untouched; and when the two
clock readings coincide the second call is a no-op. -/
theorem process_heartbeat_idempotent_up_to_timestamp
    (c : CentralController) (pid : String) (s : PopStatus) (t1 t2 : String) :
    (mapGet ((c.process_heartbeat pid s t1).2.process_heartbeat pid s t2).2.state.pops pid
       = (mapGet (c.process_heartbeat pid s t1).2.state.pops pid).map
           (fun p => { p with last_heartbeat := t2 }))
  ∧ (∀ k, k ≠ pid →
       mapGet ((c.process_heartbeat pid s t1).2.process_heartbeat pid s t2).2.state.pops k
         = mapGet (c.process_heartbeat pid s t1).2.state.pops k)
  ∧ ((c.process_heartbeat pid s t1).2.process_heartbeat pid s t1
       = (Except.ok (), (c.process_heartbeat pid s t1).2)) := by
  have hknown : ∀ (d : CentralController) (now : String) (pop : PopInfo),
      mapGet d.state.pops pid = some pop →
      d.process_heartbeat pid s now
        = (Except.ok (), { d with state :=
            { d.state with pops := mapInsert d.state.pops pid (heartbeatUpdate pop s now) } }) := by
    intro d now pop hd
    unfold CentralController.process_heartbeat
    rw [hd]
  cases h : mapGet c.state.pops pid with
  | none =>
      have h1 : c.process_heartbeat pid s t1 = (Except.ok (), c) := by
        unfold CentralController.process_heartbeat
        rw [h]
      have h2 : c.process_heartbeat pid s t2 = (Except.ok (), c) := by
        unfold CentralController.process_heartbeat
        rw [h]
      refine ⟨?_, ?_, ?_⟩ <;> simp [h1, h2, h]
  | some pop =>
      have h1 := hknown c t1 pop h
      have hpops1 : (c.process_heartbeat pid s t1).2.state.pops
          = mapInsert c.state.pops pid (heartbeatUpdate pop s t1) := by
        rw [h1]
      have hg1 : mapGet (c.process_heartbeat pid s t1).2.state.pops pid
          = some (heartbeatUpdate pop s t1) := by
        rw [hpops1]
        exact mapGet_mapInsert_same _ _ _
      have h2 := hknown (c.process_heartbeat pid s t1).2 t2 (heartbeatUpdate pop s t1) hg1
      have hpops2 : ((c.process_heartbeat pid s t1).2.process_heartbeat pid s t2).2.state.pops
          = mapInsert (c.process_heartbeat pid s t1).2.state.pops pid
              (heartbeatUpdate (heartbeatUpdate pop s t1) s t2) := by
        rw [h2]
      refine ⟨?_, ?_, ?_⟩
      · rw [hpops2, mapGet_mapInsert_same, hg1]
        rfl
      · intro k hk
        rw [hpops2, mapGet_mapInsert_other _ _ _ _ hk]
      · have h3 := hknown (c.process_heartbeat pid s t1).2 t1 (heartbeatUpdate pop s t1) hg1
        rw [h3]
        have hins : mapInsert (c.process_heartbeat pid s t1).2.state.pops pid
            (heartbeatUpdate (heartbeatUpdate pop s t1) s t1)
            = (c.process_heartbeat pid s t1).2.state.pops :=
          mapInsert_self _ _ _ hg1
        rw [hins]

/-- Witness for C7 (amended): concrete PoP `pop-1`, identical payloads at
times `T1` then `T2`; the record after the second call differs from the
first only in `last_heartbeat`, another key is untouched, and repeating
the call at the same time `T1` is a no-op. -/
theorem process_heartbeat_idempotent_up_to_timestamp_witness :
    (let c0 := exController [("pop-1", exPop "pop-1" HealthStatus.Unknown)] []
     (mapGet ((c0.process_heartbeat "pop-1" exStatus "T1").2.process_heartbeat
          "pop-1" exStatus "T2").2.state.pops "pop-1"
        = (mapGet (c0.process_heartbeat "pop-1" exStatus "T1").2.state.pops "pop-1").map
            (fun p => { p with last_heartbeat := "T2" }))
     ∧ (mapGet ((c0.process_heartbeat "pop-1" exStatus "T1").2.process_heartbeat
          "pop-1" exStatus "T2").2.state.pops "pop-9"
          = mapGet (c0.process_heartbeat "pop-1" exStatus "T1").2.state.pops "pop-9")
     ∧ ((c0.process_heartbeat "pop-1" exStatus "T1").2.process_heartbeat "pop-1" exStatus "T1"
          = (Except.ok (), (c0.process_heartbeat "pop-1" exStatus "T1").2))) := by
  refine ⟨(process_heartbeat_idempotent_up_to_timestamp _ "pop-1" exStatus "T1" "T2").1,
    (process_heartbeat_idempotent_up_to_timestamp _ "pop-1" exStatus "T1" "T2").2.1
      "pop-9" (by decide),
    (process_heartbeat_idempotent_up_to_timestamp _ "pop-1" exStatus "T1" "T1").2.2⟩

/-- Counterexample for C7 as stated: two `process_heartbeat` calls with
the identical payload at clock readings `T1` then `T2` do NOT produce an
identical `PopInfo` record — `last_heartbeat` is overwritten with the
wall-clock time of each call, so the records after the first and second
call differ in that field. -/
theorem process_heartbeat_not_identical :
    ((exController [("pop-1", exPop "pop-1" HealthStatus.Unknown)]
        []).process_heartbeat "pop-1" exStatus "T1").2.get_pop_status "pop-1"
      ≠ ((((exController [("pop-1", exPop "pop-1" HealthStatus.Unknown)]
        []).process_heartbeat "pop-1" exStatus "T1").2.process_heartbeat
          "pop-1" exStatus "T2").2.get_pop_status "pop-1")
  ∧ (((exController [("pop-1", exPop "pop-1" HealthStatus.Unknown)]
        []).process_heartbeat "pop-1" exStatus "T1").2.get_pop_status "pop-1").map
      PopInfo.last_heartbeat = some "T1"
  ∧ ((((exController [("pop-1", exPop "pop-1" HealthStatus.Unknown)]
        []).process_heartbeat "pop-1" exStatus "T1").2.process_heartbeat
          "pop-1" exStatus "T2").2.get_pop_status "pop-1").map
      PopInfo.last_heartbeat = some "T2" := by
  refine ⟨by decide, by decide, by decide⟩

/-- C10. The failed PoP is not excluded from its own reroute candidates:
the candidate pool of `find_nearest_healthy_pop` consists of exactly the
pops whose health is `Healthy` or `Degraded`, whatever PoP failed, and
whenever the first eligible PoP in iteration order is the failed one it
is returned as the replacement. -/
theorem failed_pop_not_excluded :
    (∀ (c : CentralController) (t : Tunnel) (s : String),
       (∃ q ∈ c.healthyCandidates t, q.1 = s) ↔
         ∃ p ∈ c.state.pops.map Prod.snd, p.health.is_healthy = true ∧ p.id = s)
  ∧ (∀ (c : CentralController) (t : Tunnel) (pop_id : String) (p : PopInfo)
       (rest : List PopInfo),
       eligiblePops c = p :: rest → p.id = pop_id →
       c.find_nearest_healthy_pop t = Except.ok pop_id) := by
  constructor
  · intro c t s
    rw [healthyCandidates_eq]
    unfold eligiblePops
    constructor
    · rintro ⟨q, hq, rfl⟩
      obtain ⟨p, hp, rfl⟩ := List.mem_map.mp hq
      have hpf := List.mem_filter.mp hp
      exact ⟨p, hpf.1, hpf.2, rfl⟩
    · rintro ⟨p, hp, hh, rfl⟩
      exact ⟨(p.id, 10), List.mem_map_of_mem _ (List.mem_filter.mpr ⟨hp, hh⟩), rfl⟩
  · intro c t pop_id p rest h hid
    rw [find_nearest_eq_head, h]
    simp [hid]

/-- Witness for C10: `pop-A` is `Healthy` and is the failed PoP; it is its
own nearest eligible candidate, and `handle_pop_failure "pop-A"` reroutes
tunnel `t1` right back onto `["pop-A"]`. -/
theorem failed_pop_not_excluded_witness :
    ((exController [("pop-A", exPop "pop-A" HealthStatus.Healthy)]
        ["pop-A"]).find_nearest_healthy_pop (exTunnel ["pop-A"]) = Except.ok "pop-A")
  ∧ ((exController [("pop-A", exPop "pop-A" HealthStatus.Healthy)]
        ["pop-A"]).handle_pop_failure "pop-A").2.state.tunnels
      = [("t1", { exTunnel ["pop-A"] with endpoints := ["pop-A"], status := TunnelStatus.Active })] := by
  refine ⟨(failed_pop_not_excluded).2 _ (exTunnel ["pop-A"]) "pop-A"
    (exPop "pop-A" HealthStatus.Healthy) [] rfl rfl, by decide⟩

end OpenSase
